import Mathlib

/-!
Verification of the stock-dashboard pipeline in `main.py`.

Prices are modelled as rationals (`ℚ`); Python's float arithmetic is exact
real arithmetic at this level of the spec.  Fallible Python operations
(division by zero, out-of-range `iloc`, missing DataFrame columns) are
modelled with `Option`: `none` means the Python code raises.
-/

namespace StockDashboard

/-- One daily aggregate bar of the provider payload, with the provider's
short field codes: `c`lose, `h`igh, `l`ow, `o`pen, `t`imestamp (ms), `v`olume. -/
structure Bar where
  c : ℚ
  h : ℚ
  l : ℚ
  o : ℚ
  t : ℤ
  v : ℚ
  deriving DecidableEq

/-- A parsed JSON payload from the aggregates endpoint.  `results = none`
models a dict without a `"results"` key; `otherKeys` counts the remaining
top-level keys (such as `"status"`, `"queryCount"`), which only matter for
Python dict truthiness. -/
structure Payload where
  results : Option (List Bar)
  otherKeys : ℕ
  deriving DecidableEq

/-- Python truthiness of the payload dict: an empty dict is falsy. -/
def payloadTruthy (p : Payload) : Bool :=
  p.results.isSome || p.otherKeys ≠ 0

/-- The guard `data and 'results' in data` (lines 74 and 107 of `main.py`)
together with the subsequent `data['results']` access: returns the bar list
when the guard passes and `none` when it fails. -/
def guardResults (data : Option Payload) : Option (List Bar) :=
  match data with
  | none => none
  | some p => if payloadTruthy p && p.results.isSome then p.results else none

/-- Outcome of one HTTP request, as seen by `fetch_api_data`:
a response with a status code and an (already parsed) body, or a
`requests.exceptions.RequestException` (timeout / network fault). -/
inductive HttpOutcome (α : Type) where
  | response (status : ℕ) (body : α)
  | timeout
  | networkFault
  deriving DecidableEq

/-- `fetch_api_data` (main.py lines 25-31): returns the parsed body on
HTTP 200, `None` on any other status, and `None` on any
`RequestException` (timeout or network-layer fault).  The function is
total: no outcome escapes as an exception. -/
def fetch_api_data {α : Type} (outcome : HttpOutcome α) : Option α :=
  match outcome with
  | .response status body => if status = 200 then some body else none
  | .timeout => none
  | .networkFault => none

/-- `calculate_percentage_return` (main.py lines 20-22):
`((current_val - past_val) / past_val) * 100`.  Python raises
`ZeroDivisionError` when `past_val = 0`, modelled as `none`. -/
def calculate_percentage_return (past_val current_val : ℚ) : Option ℚ :=
  if past_val = 0 then none
  else some (((current_val - past_val) / past_val) * 100)

/-- pandas `.iloc[i]` on a column of length `xs.length`: non-negative
indices count from the front, negative indices from the back, and any
out-of-range index raises (`none`). -/
def iloc (xs : List ℚ) (i : ℤ) : Option ℚ :=
  if 0 ≤ i then xs[i.toNat]?
  else if (-i).toNat ≤ xs.length then xs[(xs.length - (-i).toNat)]?
  else none

/-- `latest_price = main_df['Close'].iloc[-1]` (main.py line 101). -/
def latest_price (closes : List ℚ) : Option ℚ :=
  iloc closes (-1)

/-- `ret_total = calculate_percentage_return(main_df['Close'].iloc[0], latest_price)`
(main.py line 102). -/
def ret_total (closes : List ℚ) : Option ℚ := do
  let first ← iloc closes 0
  let latest ← latest_price closes
  calculate_percentage_return first latest

/-- `ret_week = calculate_percentage_return(main_df['Close'].iloc[-5], latest_price)
if len(main_df) >= 5 else ret_total` (main.py line 103). -/
def ret_week (closes : List ℚ) : Option ℚ :=
  if closes.length ≥ 5 then do
    let past ← iloc closes (-5)
    let latest ← latest_price closes
    calculate_percentage_return past latest
  else ret_total closes

/-- `bench_total_ret = calculate_percentage_return(bench_df['c'].iloc[0],
bench_df['c'].iloc[-1])` (main.py line 114). -/
def bench_total_ret (benchCloses : List ℚ) : Option ℚ := do
  let first ← iloc benchCloses 0
  let last ← iloc benchCloses (-1)
  calculate_percentage_return first last

/-- `outperformance = ret_total - bench_total_ret` (main.py line 115). -/
def outperformance (retTotal benchTotalRet : ℚ) : ℚ :=
  retTotal - benchTotalRet

/-- Pointwise normalization `close / base * 100` (main.py lines 111-112). -/
def normalize (base close : ℚ) : ℚ :=
  (close / base) * 100

/-- `df['Normalized'] = (df[close] / df[close].iloc[0]) * 100`
(main.py lines 111-112): raises on an empty column (`iloc[0]`), otherwise
rescales every close by the first close.  (pandas produces `inf` on a zero
base instead of raising; the theorems below only use a positive base, where
`ℚ` agrees with the real-valued semantics.) -/
def normalizeSeries (closes : List ℚ) : Option (List ℚ) :=
  match closes with
  | [] => none
  | base :: _ => some (closes.map (normalize base))

/-- One outbound HTTP request of the script: the daily-aggregates fetch,
the ticker-details fetch, the benchmark aggregates fetch, and the logo
existence probe (a HEAD request, main.py line 84). -/
inductive HttpRequest where
  | stockAggs (symbol : String)
  | tickerDetails (symbol : String)
  | benchAggs (symbol : String)
  | logoProbe (symbol : String)
  deriving DecidableEq

/-- The values the success branch hands to the presentation layer. -/
structure SuccessView where
  latest_price : ℚ
  ret_week : ℚ
  ret_total : ℚ
  outperform_val : Option ℚ
  mainNormalized : Option (List ℚ)
  benchNormalized : Option (List ℚ)
  candlestick : List Bar
  deriving DecidableEq

/-- How one run of the script ends: stopped at the empty-symbol prompt
(`st.stop`, line 57), the generic fetch-error message (line 170), an
uncaught exception inside the success branch, or a rendered page. -/
inductive Render where
  | promptForSymbol
  | fetchError
  | crash
  | success (view : SuccessView)
  deriving DecidableEq

/-- Result of one run: the HTTP requests issued, in order, and the render. -/
structure RunResult where
  requests : List HttpRequest
  render : Render
  deriving DecidableEq

/-- Metrics block (main.py lines 98-103).  `main_df['Timestamp']` raises a
`KeyError` on an empty frame (line 98) and each `iloc` raises when out of
range; both are `none` here. -/
def processMetrics (closes : List ℚ) : Option (ℚ × ℚ × ℚ) := do
  let _ ← iloc closes 0        -- line 98 column access fails on an empty frame
  let latest ← latest_price closes
  let rt ← ret_total closes
  let rw ← ret_week closes
  pure (latest, rt, rw)

/-- Comparison block (main.py lines 108-115), reached only when the
benchmark guard passed.  `bench_df['t']` (line 109) raises on an empty
benchmark result list; `bench_total_ret` raises on a zero base close. -/
def comparisonStep (closes benchCloses : List ℚ) : Option (List ℚ × List ℚ × ℚ) := do
  let _ ← iloc benchCloses 0   -- line 109 fails on an empty benchmark frame
  let mainNorm ← normalizeSeries closes
  let benchNorm ← normalizeSeries benchCloses
  let btr ← bench_total_ret benchCloses
  pure (mainNorm, benchNorm, btr)

/-- The success branch of `main.py` (lines 75-168) for primary bars
`bars`, with `benchResults` the outcome of the benchmark guard
(`benchmark_raw_data and 'results' in benchmark_raw_data`). -/
def renderSuccess (bars : List Bar) (benchResults : Option (List Bar)) : Render :=
  match processMetrics (bars.map Bar.c) with
  | none => .crash
  | some (latest, rt, rw) =>
    match benchResults with
    | none =>
      .success ⟨latest, rw, rt, none, none, none, bars⟩
    | some benchBars =>
      match comparisonStep (bars.map Bar.c) (benchBars.map Bar.c) with
      | none => .crash
      | some (mainNorm, benchNorm, btr) =>
        .success ⟨latest, rw, rt, some (outperformance rt btr),
                  some mainNorm, some benchNorm, bars⟩

/-- One top-level run of the script (main.py lines 54-170): the empty-symbol
stop, the sequential fetches, the primary-payload guard, and either the
error branch or the success branch. -/
def runDashboard (symbol : String) (benchmark_symbol : Option String)
    (stockResp infoResp benchResp : HttpOutcome Payload) : RunResult :=
  if symbol = "" then
    { requests := [], render := .promptForSymbol }
  else
    let stock_raw_data := fetch_api_data stockResp
    let _details_raw_data := fetch_api_data infoResp
    let benchmark_raw_data :=
      match benchmark_symbol with
      | some _ => fetch_api_data benchResp
      | none => none
    let baseReqs :=
      [HttpRequest.stockAggs symbol, HttpRequest.tickerDetails symbol] ++
        (match benchmark_symbol with
         | some b => [HttpRequest.benchAggs b]
         | none => [])
    match guardResults stock_raw_data with
    | some bars =>
      { requests := baseReqs ++ [HttpRequest.logoProbe symbol],
        render := renderSuccess bars (guardResults benchmark_raw_data) }
    | none =>
      { requests := baseReqs, render := .fetchError }

/-! ## Helper lemmas -/

/-- Inverting a successful render when the benchmark guard failed. -/
theorem renderSuccess_eq_success_of_none (bars : List Bar) (w : SuccessView)
    (h : renderSuccess bars none = Render.success w) :
    ∃ latest rt rw, processMetrics (bars.map Bar.c) = some (latest, rt, rw) ∧
      w = ⟨latest, rw, rt, none, none, none, bars⟩ := by
  cases hpm : processMetrics (bars.map Bar.c) with
  | none => simp [renderSuccess, hpm] at h
  | some m =>
    obtain ⟨latest, rt, rw⟩ := m
    simp [renderSuccess, hpm] at h
    exact ⟨latest, rt, rw, rfl, h.symm⟩

/-- Inverting a successful render when the benchmark guard passed. -/
theorem renderSuccess_eq_success_of_some (bars benchBars : List Bar) (w : SuccessView)
    (h : renderSuccess bars (some benchBars) = Render.success w) :
    ∃ latest rt rw mainNorm benchNorm btr,
      processMetrics (bars.map Bar.c) = some (latest, rt, rw) ∧
      comparisonStep (bars.map Bar.c) (benchBars.map Bar.c) = some (mainNorm, benchNorm, btr) ∧
      w = ⟨latest, rw, rt, some (outperformance rt btr), some mainNorm, some benchNorm, bars⟩ := by
  cases hpm : processMetrics (bars.map Bar.c) with
  | none => simp [renderSuccess, hpm] at h
  | some m =>
    obtain ⟨latest, rt, rw⟩ := m
    cases hcs : comparisonStep (bars.map Bar.c) (benchBars.map Bar.c) with
    | none => simp [renderSuccess, hpm, hcs] at h
    | some t =>
      obtain ⟨mainNorm, benchNorm, btr⟩ := t
      simp [renderSuccess, hpm, hcs] at h
      exact ⟨latest, rt, rw, mainNorm, benchNorm, btr, rfl, rfl, h.symm⟩

/-! ## Claims -/

/-- Claim C3: for all past and current values with past nonzero,
`calculate_percentage_return(past, current)` returns exactly
`(current - past) / past * 100`; in particular
`percentage_return(100, 110) = 10.0` and `percentage_return(50, 25) = -50.0`. -/
theorem C3_percentage_return_formula :
    (∀ past current : ℚ, past ≠ 0 →
      calculate_percentage_return past current = some (((current - past) / past) * 100)) ∧
    calculate_percentage_return 100 110 = some 10 ∧
    calculate_percentage_return 50 25 = some (-50) := by
  refine ⟨?_, by norm_num [calculate_percentage_return],
    by norm_num [calculate_percentage_return]⟩
  intro past current hp
  simp [calculate_percentage_return, hp]

/-- Witness for C3 at past = 2, current = 3. -/
theorem C3_percentage_return_formula_witness :
    calculate_percentage_return 2 3 = some (((3 - 2) / 2) * 100) :=
  C3_percentage_return_formula.1 2 3 (by norm_num)

/-- Claim C4: `fetch_api_data` returns the parsed JSON body on HTTP 200 and
`None` on any non-200 status, timeout, or network-layer fault; being a total
function of the outcome, it never propagates an exception to the caller. -/
theorem C4_fetch_api_data_contract :
    (∀ body : Payload, fetch_api_data (HttpOutcome.response 200 body) = some body) ∧
    (∀ (status : ℕ) (body : Payload), status ≠ 200 →
      fetch_api_data (HttpOutcome.response status body) = none) ∧
    @fetch_api_data Payload HttpOutcome.timeout = none ∧
    @fetch_api_data Payload HttpOutcome.networkFault = none := by
  refine ⟨fun body => rfl, ?_, rfl, rfl⟩
  intro status body hs
  simp [fetch_api_data, hs]

/-- Witness for C4 at an HTTP 404 response. -/
theorem C4_fetch_api_data_contract_witness :
    fetch_api_data (HttpOutcome.response 404 (⟨none, 1⟩ : Payload)) = none :=
  C4_fetch_api_data_contract.2.1 404 ⟨none, 1⟩ (by decide)

/-- Claim C5: for every primary series with fewer than 5 bars the week
return equals the total return; for the 3-bar series with closes
[10, 12, 15] both equal 50.0. -/
theorem C5_week_return_fallback :
    (∀ closes : List ℚ, closes.length < 5 → ret_week closes = ret_total closes) ∧
    ret_week [10, 12, 15] = some 50 ∧
    ret_total [10, 12, 15] = some 50 := by
  refine ⟨?_, by norm_num [ret_week, ret_total, latest_price, iloc, calculate_percentage_return],
    by norm_num [ret_total, latest_price, iloc, calculate_percentage_return]⟩
  intro closes hlen
  rw [ret_week, if_neg (by omega)]

/-- Witness for C5 at the 2-bar series [10, 20]. -/
theorem C5_week_return_fallback_witness :
    ([10, 20] : List ℚ).length < 5 ∧ ret_week [10, 20] = ret_total [10, 20] :=
  ⟨by decide, C5_week_return_fallback.1 [10, 20] (by decide)⟩

/-- Claim C7: outperformance is the arithmetic difference of the primary
and benchmark total returns, and is antisymmetric in its two arguments. -/
theorem C7_outperformance_antisymmetric :
    (∀ a b : ℚ, outperformance a b = a - b) ∧
    (∀ a b : ℚ, outperformance a b = -(outperformance b a)) :=
  ⟨fun _ _ => rfl, fun a b => by simp [outperformance]⟩

/-- Claim C8: with an empty ticker symbol the script stops at the prompt
(`st.stop`) before any fetch: whatever the benchmark selection and whatever
the network would have answered, the run issues zero HTTP requests. -/
theorem C8_empty_symbol_halts :
    ∀ (benchmark_symbol : Option String) (stockResp infoResp benchResp : HttpOutcome Payload),
      runDashboard "" benchmark_symbol stockResp infoResp benchResp =
        { requests := [], render := Render.promptForSymbol } := by
  intro benchmark_symbol stockResp infoResp benchResp
  rfl

/-- Claim C1 (the code contradicts it): a primary payload whose "results"
value is the empty list passes the guard `stock_raw_data and 'results' in
stock_raw_data` (a nonempty dict with the key is truthy), so the run enters
the success branch and crashes on the empty frame instead of reaching the
generic error message of the error branch. -/
theorem C1_empty_results_not_error_path :
    guardResults (some ⟨some [], 1⟩) = some [] ∧
    (runDashboard "AAPL" none (HttpOutcome.response 200 ⟨some [], 1⟩)
        (HttpOutcome.response 200 ⟨none, 1⟩) HttpOutcome.timeout).render = Render.crash ∧
    Render.crash ≠ Render.fetchError := by
  refine ⟨rfl, by decide, by decide⟩

/-- Counterexample to claim C2 as stated: in the 6-bar series with closes
[1, 2, 4, 4, 4, 8] the 6th-from-last close is 1 and the last close is 8, so
the claimed week return would be 700; the code computes 300 (it uses
`iloc[-5]`, the 5th-from-last close, which is 2). -/
theorem C2_week_return_counterexample :
    ([1, 2, 4, 4, 4, 8] : List ℚ).length ≥ 5 ∧
    iloc [1, 2, 4, 4, 4, 8] (-6) = some 1 ∧
    latest_price [1, 2, 4, 4, 4, 8] = some 8 ∧
    calculate_percentage_return 1 8 = some 700 ∧
    ret_week [1, 2, 4, 4, 4, 8] = some 300 ∧
    (300 : ℚ) ≠ 700 := by
  refine ⟨by decide, by norm_num [iloc, show ((6:ℤ)).toNat = 6 from rfl],
    by norm_num [latest_price, iloc, show ((1:ℤ)).toNat = 1 from rfl],
    by norm_num [calculate_percentage_return],
    ?_, by norm_num⟩
  norm_num [ret_week, ret_total, latest_price, iloc, calculate_percentage_return,
    show ((5:ℤ)).toNat = 5 from rfl, show ((1:ℤ)).toNat = 1 from rfl]

/-- Claim C2 (amended): for every primary series with at least 5 bars the
week return equals `calculate_percentage_return` applied to the
5th-from-last close (`iloc[-5]`) and the last close; for fewer than 5 bars
it falls back to the total return. -/
theorem C2_week_return_fifth_from_last :
    (∀ closes : List ℚ, closes.length ≥ 5 →
      ret_week closes = (do
        let past ← closes[(closes.length - 5)]?
        let last ← closes[(closes.length - 1)]?
        calculate_percentage_return past last)) ∧
    (∀ closes : List ℚ, closes.length < 5 → ret_week closes = ret_total closes) := by
  constructor
  · intro closes h5
    rw [ret_week, if_pos h5]
    have h1 : iloc closes (-5) = closes[(closes.length - 5)]? := by
      rw [iloc, if_neg (by decide), if_pos (by omega)]
      norm_num [show ((5:ℤ)).toNat = 5 from rfl]
    have h2 : latest_price closes = closes[(closes.length - 1)]? := by
      rw [latest_price, iloc, if_neg (by decide), if_pos (by omega)]
      norm_num [show ((1:ℤ)).toNat = 1 from rfl]
    rw [h1, h2]
  · intro closes hlen
    rw [ret_week, if_neg (by omega)]

/-- Witness for C2 (amended) at the 6-bar series [1, 2, 4, 4, 4, 8]. -/
theorem C2_week_return_fifth_from_last_witness :
    ret_week [1, 2, 4, 4, 4, 8] = (do
      let past ← ([1, 2, 4, 4, 4, 8] : List ℚ)[(([1, 2, 4, 4, 4, 8] : List ℚ).length - 5)]?
      let last ← ([1, 2, 4, 4, 4, 8] : List ℚ)[(([1, 2, 4, 4, 4, 8] : List ℚ).length - 1)]?
      calculate_percentage_return past last) :=
  C2_week_return_fifth_from_last.1 [1, 2, 4, 4, 4, 8] (by decide)

/-- Claim C6: for a non-empty series with positive first close, the
normalization `close / first close * 100` maps the first element to exactly
100 and is a strictly monotone transform, so it preserves the relative
ordering of the values. -/
theorem C6_normalization_base_and_order (base : ℚ) (rest : List ℚ) (hbase : 0 < base) :
    (∃ norm, normalizeSeries (base :: rest) = some norm ∧
      norm.head? = some 100 ∧
      norm = (base :: rest).map (normalize base)) ∧
    (∀ x y : ℚ, x < y ↔ normalize base x < normalize base y) := by
  constructor
  · refine ⟨(base :: rest).map (normalize base), rfl, ?_, rfl⟩
    simp [normalize, div_self (ne_of_gt hbase)]
  · intro x y
    unfold normalize
    rw [mul_lt_mul_right (by norm_num : (0:ℚ) < 100),
      div_lt_div_iff_of_pos_right hbase]

/-- Witness for C6 at the series [2, 3]. -/
theorem C6_normalization_base_and_order_witness :
    (∃ norm, normalizeSeries ((2:ℚ) :: [3]) = some norm ∧
      norm.head? = some 100 ∧
      norm = ((2:ℚ) :: [3]).map (normalize 2)) ∧
    (∀ x y : ℚ, x < y ↔ normalize 2 x < normalize 2 y) :=
  C6_normalization_base_and_order 2 [3] (by norm_num)

/-- Claim C9: `calculate_percentage_return` divides by `past_val` without a
guard: at a zero base it raises (modelled as `none`), and none of its call
sites guard against a zero base close — the total return, the week return
(whose base is the 5th-from-last close), and the benchmark total return all
propagate the failure. -/
theorem C9_zero_base_division_unguarded :
    (∀ current : ℚ, calculate_percentage_return 0 current = none) ∧
    (∀ rest : List ℚ, ret_total (0 :: rest) = none) ∧
    (∀ closes : List ℚ, closes.length ≥ 5 → iloc closes (-5) = some 0 →
      ret_week closes = none) ∧
    (∀ rest : List ℚ, bench_total_ret (0 :: rest) = none) := by
  refine ⟨fun current => by simp [calculate_percentage_return], ?_, ?_, ?_⟩
  · intro rest
    have h0 : iloc (0 :: rest) 0 = some 0 := by simp [iloc]
    cases h : latest_price (0 :: rest) with
    | none => simp [ret_total, h0, h]
    | some l => simp [ret_total, h0, h, calculate_percentage_return]
  · intro closes h5 hz
    rw [ret_week, if_pos h5]
    cases h : latest_price closes with
    | none => simp [hz, h]
    | some l => simp [hz, h, calculate_percentage_return]
  · intro rest
    have h0 : iloc (0 :: rest) 0 = some 0 := by simp [iloc]
    cases h : iloc (0 :: rest) (-1) with
    | none => simp [bench_total_ret, h0, h]
    | some l => simp [bench_total_ret, h0, h, calculate_percentage_return]

/-- Witness for C9 at the 5-bar series [0, 1, 1, 1, 1], whose week-return
base (`iloc[-5]`) is the zero first close. -/
theorem C9_zero_base_division_unguarded_witness :
    ret_week [0, 1, 1, 1, 1] = none :=
  C9_zero_base_division_unguarded.2.2.1 [0, 1, 1, 1, 1] (by decide)
    (by norm_num [iloc, show ((5:ℤ)).toNat = 5 from rfl])

/-- Claim C10: the primary series acquires normalized values only when the
benchmark guard (`benchmark_raw_data and 'results' in benchmark_raw_data`)
passes; when it fails, neither series is normalized, no outperformance is
shown, and the rest of the primary rendering — latest price, total return,
week return, candlestick data — is unchanged. -/
theorem C10_normalized_only_with_benchmark :
    (∀ (bars : List Bar) (benchRaw : Option Payload) (w : SuccessView),
      guardResults benchRaw = none →
      renderSuccess bars (guardResults benchRaw) = Render.success w →
      w.mainNormalized = none ∧ w.benchNormalized = none ∧ w.outperform_val = none) ∧
    (∀ (bars : List Bar) (benchRaw : Option Payload) (w v : SuccessView),
      renderSuccess bars (guardResults benchRaw) = Render.success w →
      renderSuccess bars none = Render.success v →
      w.latest_price = v.latest_price ∧ w.ret_total = v.ret_total ∧
        w.ret_week = v.ret_week ∧ w.candlestick = v.candlestick) ∧
    (∀ (bars : List Bar) (benchRaw : Option Payload) (w : SuccessView),
      renderSuccess bars (guardResults benchRaw) = Render.success w →
      w.mainNormalized.isSome → (guardResults benchRaw).isSome) := by
  refine ⟨?_, ?_, ?_⟩
  · intro bars benchRaw w hg hr
    rw [hg] at hr
    obtain ⟨latest, rt, rw, hpm, hw⟩ := renderSuccess_eq_success_of_none bars w hr
    subst hw
    exact ⟨rfl, rfl, rfl⟩
  · intro bars benchRaw w v hw hv
    obtain ⟨latest, rt, rw, hpm, hveq⟩ := renderSuccess_eq_success_of_none bars v hv
    subst hveq
    cases hg : guardResults benchRaw with
    | none =>
      rw [hg] at hw
      obtain ⟨l2, rt2, rw2, hpm2, hweq⟩ := renderSuccess_eq_success_of_none bars w hw
      subst hweq
      rw [hpm] at hpm2
      obtain ⟨rfl, rfl, rfl⟩ : latest = l2 ∧ rt = rt2 ∧ rw = rw2 := by
        simpa using Option.some.inj hpm2
      exact ⟨rfl, rfl, rfl, rfl⟩
    | some benchBars =>
      rw [hg] at hw
      obtain ⟨l2, rt2, rw2, mn, bn, btr, hpm2, hcs, hweq⟩ :=
        renderSuccess_eq_success_of_some bars benchBars w hw
      subst hweq
      rw [hpm] at hpm2
      obtain ⟨rfl, rfl, rfl⟩ : latest = l2 ∧ rt = rt2 ∧ rw = rw2 := by
        simpa using Option.some.inj hpm2
      exact ⟨rfl, rfl, rfl, rfl⟩
  · intro bars benchRaw w hr hsome
    cases hg : guardResults benchRaw with
    | some benchBars => simp
    | none =>
      rw [hg] at hr
      obtain ⟨latest, rt, rw, hpm, hw⟩ := renderSuccess_eq_success_of_none bars w hr
      subst hw
      simp at hsome

/-- Witness for C10 at a 1-bar primary series with close 10 and a failed
benchmark fetch (`benchmark_raw_data = None`). -/
theorem C10_normalized_only_with_benchmark_witness :
    (⟨10, 0, 0, none, none, none, [⟨10, 10, 10, 10, 0, 0⟩]⟩ : SuccessView).mainNormalized = none ∧
    (⟨10, 0, 0, none, none, none, [⟨10, 10, 10, 10, 0, 0⟩]⟩ : SuccessView).benchNormalized = none ∧
    (⟨10, 0, 0, none, none, none, [⟨10, 10, 10, 10, 0, 0⟩]⟩ : SuccessView).outperform_val = none :=
  C10_normalized_only_with_benchmark.1 [⟨10, 10, 10, 10, 0, 0⟩] none
    ⟨10, 0, 0, none, none, none, [⟨10, 10, 10, 10, 0, 0⟩]⟩ rfl
    (by norm_num [renderSuccess, processMetrics, ret_total, ret_week, latest_price, iloc,
      calculate_percentage_return, guardResults])

end StockDashboard
